import Mathlib

/-!
Shallow embedding of the filen-web repository slice under verification:

* `src/unnamed/part_000` — the sync-pair context menu (`togglePause`, `deleteSync`);
* `src/unnamed/part_001` — the directory public-link panel (`toggleStatus`, `save`)
  and the formatting utilities (`convertTimestampToMs`, `formatBytes`);
* `src/src/components/drive/list/contextMenu.tsx` — the drive context menu
  (`createDirectory`).

Each event handler is embedded as a pure function.  The asynchronous
worker/API boundary is passed in as an oracle `remote : Call → Except JsError Unit`
(resp. returning the created item for `createDirectory`); each `await` of a
remote call in the source becomes one consultation of the oracle, and the
first rejected call sends control to the `catch` block, exactly as a thrown
promise rejection would.  React state setters become fields of an explicit
state record; the returned result also carries the list of remote calls that
were issued and the list of error-toast messages that were shown.

JavaScript numbers are modelled exactly, as rationals; `Date.now()` becomes an
explicit `now` parameter.
-/

/-- A JavaScript error value as observed by the handlers: an optional `message`
field (absent models `null`/`undefined`, so that `??` falls through) and the
result of `toString()`. -/
structure JsError where
  message : Option String
  toStr : String
deriving DecidableEq

/-- Embeds `(e as Error).message ?? (e as Error).toString()`. -/
def errMessage (e : JsError) : String :=
  e.message.getD e.toStr

/-- A sync pair record of the desktop configuration (`SyncPair` from
`@filen/sync`), restricted to the fields this slice reads or writes. -/
structure SyncPair where
  uuid : String
  localPath : String
  remotePath : String
  paused : Bool
  removed : Bool
deriving DecidableEq

/-- The local mirror the sync context menu manipulates: the ordered
`desktopConfig.syncConfig.syncPairs` collection, the `selectedSync` reference
of the syncs store, and the `changing` flag of the syncs store. -/
structure SyncsState where
  syncPairs : List SyncPair
  selectedSync : Option String
  changing : Bool
deriving DecidableEq

/-- The desktop API calls the sync context menu can issue. -/
inductive RemoteCall where
  | syncUpdatePaused (uuid : String) (paused : Bool)
  | syncResetCache (uuid : String)
  | syncUpdateRemoved (uuid : String) (removed : Bool)
deriving DecidableEq

/-- Result of one invocation of a sync context-menu handler: the state after
the handler returns, the remote calls it issued (in order), the error-toast
messages it showed, and the route it navigated to, if any. -/
structure SyncActionResult where
  state : SyncsState
  calls : List RemoteCall
  errorToasts : List String
  navigatedTo : Option String
deriving DecidableEq

/-- Embeds the `syncConfig` memo:
`desktopConfig.syncConfig.syncPairs.filter(pair => pair.uuid === sync.uuid)[0] ?? null`. -/
def findSyncConfig (syncPairs : List SyncPair) (uuid : String) : Option SyncPair :=
  (syncPairs.filter (fun pair => pair.uuid == uuid)).head?

/-- Embeds `togglePause` from `src/unnamed/part_000` (lines 34-71).
`setChanging(true)` at entry followed by `setChanging(false)` in the
`finally` block nets to `changing := false` on every exit that passes the
`!syncConfig` guard; the guard itself returns before touching anything.
Note the handler never reads the `changing` flag. -/
def togglePause (remote : RemoteCall → Except JsError Unit) (st : SyncsState)
    (uuid : String) : SyncActionResult :=
  match findSyncConfig st.syncPairs uuid with
  | none => ⟨st, [], [], none⟩
  | some syncConfig =>
    let paused := !syncConfig.paused
    match remote (.syncUpdatePaused uuid paused) with
    | .error e =>
      ⟨{ st with changing := false }, [.syncUpdatePaused uuid paused], [errMessage e], none⟩
    | .ok _ =>
      match remote (.syncResetCache uuid) with
      | .error e =>
        ⟨{ st with changing := false },
          [.syncUpdatePaused uuid paused, .syncResetCache uuid], [errMessage e], none⟩
      | .ok _ =>
        ⟨{ st with
            changing := false,
            syncPairs := st.syncPairs.map fun pair =>
              if pair.uuid = uuid then { pair with paused := paused } else pair },
          [.syncUpdatePaused uuid paused, .syncResetCache uuid], [], none⟩

/-- Embeds `deleteSync` from `src/unnamed/part_000` (lines 73-118).
`confirmed` is the (negated-cancellation) outcome of `showConfirmDialog`.
Note the handler never consults the local mirror and never reads the
`changing` flag. -/
def deleteSync (remote : RemoteCall → Except JsError Unit) (st : SyncsState)
    (uuid : String) (confirmed : Bool) : SyncActionResult :=
  if confirmed = false then ⟨st, [], [], none⟩
  else
    match remote (.syncUpdateRemoved uuid true) with
    | .error e =>
      ⟨{ st with changing := false }, [.syncUpdateRemoved uuid true], [errMessage e], none⟩
    | .ok _ =>
      ⟨{ st with
          changing := false,
          selectedSync := none,
          syncPairs := st.syncPairs.filter fun pair => pair.uuid != uuid },
        [.syncUpdateRemoved uuid true], [], some "/syncs"⟩

/-- A drive item record (`DriveCloudItem`), restricted to the fields this
slice reads or writes. -/
structure DriveItem where
  uuid : String
  name : String
  size : Nat
  selected : Bool
deriving DecidableEq

/-- The `DirLinkStatusResponse` record held in the link panel's `status`
state.  The source field `exists` is embedded as `linkExists`. -/
structure DirLinkStatus where
  linkExists : Bool
  uuid : String
  key : String
  downloadBtn : Nat
  expirationText : String
  password : Option String
deriving DecidableEq

/-- The worker calls the link panel can issue.  `refetchStatus` stands for
`query.refetch()`, which (per react-query) resolves even when the underlying
fetch fails, so it is recorded in the trace but cannot reject. -/
inductive WorkerCall where
  | enablePublicLink (typ : String) (uuid : String)
  | disablePublicLink (typ : String) (itemUUID : String) (linkUUID : String)
  | editPublicLink (typ : String) (itemUUID : String) (linkUUID : String)
      (enableDownload : Bool) (expiration : String) (password : Option String)
  | refetchStatus (uuid : String)
deriving DecidableEq

/-- Does `cs` start with `pat`?  Helper for `jsIncludes`. -/
def charsHasLead : List Char → List Char → Bool
  | _, [] => true
  | [], _ :: _ => false
  | c :: cs, p :: ps => c = p && charsHasLead cs ps

/-- Does `pat` occur as a contiguous run somewhere in the second list? -/
def charsContains (pat : List Char) : List Char → Bool
  | [] => pat.isEmpty
  | c :: tail => charsHasLead (c :: tail) pat || charsContains pat tail

/-- Embeds JavaScript `s.includes(pat)` on strings. -/
def jsIncludes (s pat : String) : Bool :=
  charsContains pat.data s.data

/-- Result of one invocation of a link-panel toggle: the drive items
collection, the open/closed state of the panel dialog, the worker calls
issued (in order) and the error-toast messages shown. -/
structure LinkPanelResult where
  items : List DriveItem
  openPanel : Bool
  calls : List WorkerCall
  errorToasts : List String
deriving DecidableEq

/-- Embeds lines 81-86 of `src/unnamed/part_001`: after a successful
enable/disable, if `location.includes("links")` the item is dropped from the
listing and the panel is closed; otherwise nothing changes. -/
def linkListingUpdate (itemUUID location : String) (items : List DriveItem)
    (openPanel : Bool) : List DriveItem × Bool :=
  if jsIncludes location "links" then
    (items.filter (fun prevItem => prevItem.uuid != itemUUID), false)
  else
    (items, openPanel)

/-- Embeds `toggleStatus` from `src/unnamed/part_001` (lines 53-98).
The `!status || saving` guard returns before any side effect.  Inside the
`try`, `checked` selects enable vs disable; disabling a non-existent link is
an early return (the `finally` block only dismisses the toast and re-arms
`saving`).  After a successful remote call the handler refetches the status
and applies `linkListingUpdate`. -/
def toggleStatus (remote : WorkerCall → Except JsError Unit) (itemUUID : String)
    (status : Option DirLinkStatus) (saving : Bool) (location : String)
    (items : List DriveItem) (openPanel : Bool) (checked : Bool) : LinkPanelResult :=
  match status with
  | none => ⟨items, openPanel, [], []⟩
  | some stt =>
    if saving then ⟨items, openPanel, [], []⟩
    else if checked then
      match remote (.enablePublicLink "directory" itemUUID) with
      | .error e =>
        ⟨items, openPanel, [.enablePublicLink "directory" itemUUID], [errMessage e]⟩
      | .ok _ =>
        let p := linkListingUpdate itemUUID location items openPanel
        ⟨p.1, p.2, [.enablePublicLink "directory" itemUUID, .refetchStatus itemUUID], []⟩
    else if stt.linkExists then
      match remote (.disablePublicLink "directory" itemUUID stt.uuid) with
      | .error e =>
        ⟨items, openPanel, [.disablePublicLink "directory" itemUUID stt.uuid], [errMessage e]⟩
      | .ok _ =>
        let p := linkListingUpdate itemUUID location items openPanel
        ⟨p.1, p.2, [.disablePublicLink "directory" itemUUID stt.uuid, .refetchStatus itemUUID], []⟩
    else ⟨items, openPanel, [], []⟩

/-- Embeds `save` from `src/unnamed/part_001` (lines 104-133).  The handler
touches no mirrored collection, so the result is just the issued calls and
the error toasts.  The password argument models
`password && password.length > 0 ? password : undefined`. -/
def save (remote : WorkerCall → Except JsError Unit) (itemUUID : String)
    (status : Option DirLinkStatus) (saving : Bool) (downloadBtn : Bool)
    (expiration : String) (password : String) : List WorkerCall × List String :=
  match status with
  | none => ([], [])
  | some stt =>
    if !stt.linkExists || saving then ([], [])
    else
      let call := WorkerCall.editPublicLink "directory" itemUUID stt.uuid downloadBtn
        expiration (if 0 < password.length then some password else none)
      match remote call with
      | .error e => ([call], [errMessage e])
      | .ok _ => ([call, .refetchStatus itemUUID], [])

/-- Embeds JavaScript `s.toLowerCase()` (ASCII case folding, matching
`String.toLower` character by character). -/
def jsToLowerCase (s : String) : String :=
  String.mk (s.data.map Char.toLower)

/-- Embeds `createDirectory` from
`src/src/components/drive/list/contextMenu.tsx` (lines 28-59).  `input` is
the outcome of `showInputDialog` (`none` = cancelled); the oracle embeds
`worker.createDirectory({ name, parent })`, which resolves to the created
item.  The directory-name cache write has no observable effect on the claims
and is omitted.  Returns the items collection and the error toasts. -/
def createDirectory (remote : String → String → Except JsError DriveItem)
    (input : Option String) (parent : String) (items : List DriveItem) :
    List DriveItem × List String :=
  match input with
  | none => (items, [])
  | some name =>
    match remote name parent with
    | .error e => (items, [errMessage e])
    | .ok item =>
      (items.filter (fun prevItem =>
          prevItem.uuid != item.uuid && jsToLowerCase prevItem.name != jsToLowerCase item.name)
        ++ [item], [])

/-- Embeds `convertTimestampToMs` from `src/unnamed/part_001` (lines 282-290),
with `Date.now()` made explicit as `now`.  Numbers are exact rationals; the
`else` branch applies `Math.floor` to `timestamp * 1000`. -/
def convertTimestampToMs (now timestamp : ℚ) : ℚ :=
  if |now - timestamp| < |now - timestamp * 1000| then timestamp
  else (⌊timestamp * 1000⌋ : ℤ)

/-- The unit table of `formatBytes`. -/
def sizes : List String :=
  ["Bytes", "KB", "MB", "GB", "TB", "PB", "EB", "ZB", "YB"]

/-- JavaScript array indexing `l[i]` coerced to a string: out-of-bounds
access yields `undefined`, which string concatenation renders as
`"undefined"`. -/
def jsArrayGet (l : List String) (i : ℤ) : String :=
  if h : 0 ≤ i ∧ i.toNat < l.length then l.get ⟨i.toNat, h.2⟩ else "undefined"

/-- Drops the trailing `'0'` digits of a digit run (the effect of
`parseFloat` on the fraction part of a `toFixed` rendering). -/
def dropTrailingZeros (cs : List Char) : List Char :=
  (cs.reverse.dropWhile (fun c => c = '0')).reverse

/-- The fraction digits of `fp` left-padded with `'0'` to width `dm`. -/
def fracDigits (fp dm : ℕ) : List Char :=
  List.replicate (dm - (toString fp).length) '0' ++ (toString fp).data

/-- Renders the integer `n` standing for the fixed-point value `n / 10 ^ dm`
the way `parseFloat((...).toFixed(dm)) + ""` renders it: integer part, then a
fraction part with the trailing zeros dropped, omitted entirely when zero. -/
def renderFixedInt (n : ℤ) (dm : ℕ) : String :=
  let sign : String := if n < 0 then "-" else ""
  let m : ℕ := n.natAbs
  let ip : ℕ := m / 10 ^ dm
  let fp : ℕ := m % 10 ^ dm
  let fracs := dropTrailingZeros (fracDigits fp dm)
  if fracs.isEmpty then sign ++ toString ip
  else sign ++ toString ip ++ "." ++ String.mk fracs

/-- Embeds `parseFloat((q).toFixed(dm))`, rendered back to a string: the
value is rounded to `dm` decimal places and printed in its shortest decimal
form.  Exact-rational model of the double-precision pipeline; it agrees with
JavaScript whenever `q` and the rounded value are exactly representable
decimals of modest size, which covers every value this file evaluates it
at. -/
def jsToFixedParseFloatString (q : ℚ) (dm : ℕ) : String :=
  renderFixedInt (round (q * (10 : ℚ) ^ dm)) dm

/-- Embeds `formatBytes` from `src/unnamed/part_001` (lines 300-311).
`Math.floor(Math.log(bytes) / Math.log(k))` is the floor of the base-1024
logarithm, i.e. `Int.log 1024 bytes` (exact-arithmetic model of the float
computation). -/
def formatBytes (bytes : ℚ) (decimals : ℤ) : String :=
  if bytes = 0 then "0 Bytes"
  else
    let dm : ℕ := if decimals < 0 then 0 else decimals.toNat
    let i : ℤ := Int.log 1024 bytes
    jsToFixedParseFloatString (bytes / (1024 : ℚ) ^ i) dm ++ " " ++ jsArrayGet sizes i

/-! ## Helper lemmas and shared sample data -/

theorem length_filter_split {α : Type} (p : α → Bool) (l : List α) :
    (l.filter p).length + (l.filter (fun a => !(p a))).length = l.length := by
  induction l with
  | nil => rfl
  | cons a l ih =>
    by_cases h : p a = true
    · simp [List.filter_cons, h, ← ih]; omega
    · simp only [Bool.not_eq_true] at h
      simp [List.filter_cons, h, ← ih]; omega

def sampleSync : SyncPair :=
  ⟨"a", "/home/a", "/cloud/a", false, false⟩

def sampleSyncB : SyncPair :=
  ⟨"b", "/home/b", "/cloud/b", true, false⟩

def sampleErr : JsError :=
  ⟨some "request failed", "Error: request failed"⟩

/-! ## C1 -/

/-- C1: when the sync's record is loaded (and unique, per the
one-record-per-id invariant), a successful `togglePause` issues
`syncUpdatePaused` with exactly the negation of the record's previous
`paused` flag, and the updated collection has the same length, with the
record matching the sync's uuid carrying the negated flag and every other
position unchanged. -/
theorem togglePause_toggles_paused (st : SyncsState) (uuid : String) (p : SyncPair)
    (huniq : st.syncPairs.filter (fun pair => pair.uuid == uuid) = [p]) :
    (togglePause (fun _ => Except.ok ()) st uuid).calls =
      [RemoteCall.syncUpdatePaused uuid (!p.paused), RemoteCall.syncResetCache uuid] ∧
    (togglePause (fun _ => Except.ok ()) st uuid).state.syncPairs.length =
      st.syncPairs.length ∧
    ∀ (i : ℕ) (hi : i < st.syncPairs.length)
      (hi' : i < (togglePause (fun _ => Except.ok ()) st uuid).state.syncPairs.length),
      ((st.syncPairs.get ⟨i, hi⟩).uuid = uuid →
        (togglePause (fun _ => Except.ok ()) st uuid).state.syncPairs.get ⟨i, hi'⟩ =
          { st.syncPairs.get ⟨i, hi⟩ with paused := !p.paused }) ∧
      ((st.syncPairs.get ⟨i, hi⟩).uuid ≠ uuid →
        (togglePause (fun _ => Except.ok ()) st uuid).state.syncPairs.get ⟨i, hi'⟩ =
          st.syncPairs.get ⟨i, hi⟩) := by
  have hf : findSyncConfig st.syncPairs uuid = some p := by
    unfold findSyncConfig
    rw [huniq]
    rfl
  refine ⟨?_, ?_, ?_⟩
  · simp [togglePause, hf]
  · simp [togglePause, hf]
  · intro i hi hi'
    constructor
    · intro h
      simp only [List.get_eq_getElem] at h
      simp [togglePause, hf, List.getElem_map, h]
    · intro h
      simp only [List.get_eq_getElem] at h
      simp [togglePause, hf, List.getElem_map, h]

/-- Witness for C1 at a concrete two-record state. -/
theorem togglePause_toggles_paused_witness :
    ([sampleSync, sampleSyncB].filter (fun pair => pair.uuid == "a") = [sampleSync]) ∧
    (togglePause (fun _ => Except.ok ())
        ⟨[sampleSync, sampleSyncB], none, false⟩ "a").calls =
      [RemoteCall.syncUpdatePaused "a" true, RemoteCall.syncResetCache "a"] :=
  ⟨by decide,
    (togglePause_toggles_paused ⟨[sampleSync, sampleSyncB], none, false⟩ "a" sampleSync
      (by decide)).1⟩

/-! ## C4 -/

/-- C4: a successful, confirmed `deleteSync` clears the selected-sync
reference and removes from the local collection exactly the records whose
uuid matches — exactly one under the one-record-per-id invariant: the result
is a sublist of the original (other records stay in place and in order),
membership is preserved exactly for the non-matching records, and the length
drops by one. -/
theorem deleteSync_removes_record (st : SyncsState) (uuid : String) (p : SyncPair)
    (huniq : st.syncPairs.filter (fun pair => pair.uuid == uuid) = [p]) :
    (deleteSync (fun _ => Except.ok ()) st uuid true).state.selectedSync = none ∧
    (deleteSync (fun _ => Except.ok ()) st uuid true).state.syncPairs.Sublist
      st.syncPairs ∧
    (∀ q ∈ (deleteSync (fun _ => Except.ok ()) st uuid true).state.syncPairs,
      q ∈ st.syncPairs ∧ q.uuid ≠ uuid) ∧
    (∀ q ∈ st.syncPairs, q.uuid ≠ uuid →
      q ∈ (deleteSync (fun _ => Except.ok ()) st uuid true).state.syncPairs) ∧
    (deleteSync (fun _ => Except.ok ()) st uuid true).state.syncPairs.length + 1 =
      st.syncPairs.length := by
  have hd : deleteSync (fun _ => Except.ok ()) st uuid true =
      ⟨⟨st.syncPairs.filter (fun pair => pair.uuid != uuid), none, false⟩,
        [RemoteCall.syncUpdateRemoved uuid true], [], some "/syncs"⟩ := rfl
  rw [hd]
  refine ⟨rfl, List.filter_sublist _, ?_, ?_, ?_⟩
  · intro q hq
    simp only [List.mem_filter, bne_iff_ne, ne_eq] at hq
    exact ⟨hq.1, hq.2⟩
  · intro q hq hne
    simp only [List.mem_filter, bne_iff_ne, ne_eq]
    exact ⟨hq, hne⟩
  · have hsplit := length_filter_split (fun pair => pair.uuid == uuid) st.syncPairs
    rw [huniq] at hsplit
    simp only [List.length_cons, List.length_nil] at hsplit
    have hsame : (st.syncPairs.filter (fun pair => pair.uuid != uuid)).length =
        (st.syncPairs.filter (fun a => !(a.uuid == uuid))).length := rfl
    simp only [hsame]
    omega

/-- Witness for C4 at a concrete two-record state. -/
theorem deleteSync_removes_record_witness :
    ([sampleSync, sampleSyncB].filter (fun pair => pair.uuid == "a") = [sampleSync]) ∧
    (deleteSync (fun _ => Except.ok ())
        ⟨[sampleSync, sampleSyncB], some "a", false⟩ "a" true).state.selectedSync = none ∧
    (deleteSync (fun _ => Except.ok ())
        ⟨[sampleSync, sampleSyncB], some "a", false⟩ "a" true).state.syncPairs.length + 1 = 2 :=
  ⟨by decide,
    (deleteSync_removes_record ⟨[sampleSync, sampleSyncB], some "a", false⟩ "a" sampleSync
      (by decide)).1,
    (deleteSync_removes_record ⟨[sampleSync, sampleSyncB], some "a", false⟩ "a" sampleSync
      (by decide)).2.2.2.2⟩

/-! ## C5 -/

/-- C5: a successful `createDirectory` appends the created record after
removing every existing record colliding on uuid or on case-insensitive
name, so the resulting collection contains exactly one record with the new
record's case-insensitive name — the new record itself — and exactly one
record with its uuid. -/
theorem createDirectory_unique_name (items : List DriveItem) (parent name : String)
    (item : DriveItem) (remote : String → String → Except JsError DriveItem)
    (hok : remote name parent = Except.ok item) :
    (createDirectory remote (some name) parent items).1 =
      items.filter (fun prevItem =>
        prevItem.uuid != item.uuid &&
        jsToLowerCase prevItem.name != jsToLowerCase item.name) ++ [item] ∧
    (createDirectory remote (some name) parent items).1.filter
      (fun x => jsToLowerCase x.name == jsToLowerCase item.name) = [item] ∧
    (createDirectory remote (some name) parent items).1.filter
      (fun x => x.uuid == item.uuid) = [item] ∧
    (createDirectory remote (some name) parent items).2 = [] := by
  have hc : createDirectory remote (some name) parent items =
      (items.filter (fun prevItem =>
        prevItem.uuid != item.uuid &&
        jsToLowerCase prevItem.name != jsToLowerCase item.name) ++ [item], []) := by
    simp [createDirectory, hok]
  refine ⟨by rw [hc], ?_, ?_, by rw [hc]⟩
  · rw [hc]
    simp only [List.filter_append]
    have h1 : (items.filter (fun prevItem =>
        prevItem.uuid != item.uuid &&
        jsToLowerCase prevItem.name != jsToLowerCase item.name)).filter
        (fun x => jsToLowerCase x.name == jsToLowerCase item.name) = [] := by
      apply List.filter_eq_nil_iff.mpr
      intro a ha
      have hmem := (List.mem_filter.mp ha).2
      simp only [Bool.and_eq_true, bne_iff_ne, ne_eq] at hmem
      simp only [beq_iff_eq]
      exact hmem.2
    rw [h1]
    simp
  · rw [hc]
    simp only [List.filter_append]
    have h1 : (items.filter (fun prevItem =>
        prevItem.uuid != item.uuid &&
        jsToLowerCase prevItem.name != jsToLowerCase item.name)).filter
        (fun x => x.uuid == item.uuid) = [] := by
      apply List.filter_eq_nil_iff.mpr
      intro a ha
      have hmem := (List.mem_filter.mp ha).2
      simp only [Bool.and_eq_true, bne_iff_ne, ne_eq] at hmem
      simp only [beq_iff_eq]
      exact hmem.1
    rw [h1]
    simp

/-- Witness for C5: creating `"New"` next to an item named `"new"` leaves a
single record with that case-insensitive name, the created one. -/
theorem createDirectory_unique_name_witness :
    ((fun (n : String) (_ : String) =>
        (Except.ok (⟨"u9", n, 0, false⟩ : DriveItem) : Except JsError DriveItem))
        "New" "p" = Except.ok (⟨"u9", "New", 0, false⟩ : DriveItem)) ∧
    (createDirectory (fun n _ => Except.ok ⟨"u9", n, 0, false⟩) (some "New") "p"
        [⟨"u1", "new", 1, false⟩, ⟨"u2", "Other", 2, false⟩]).1.filter
      (fun x => jsToLowerCase x.name == jsToLowerCase "New") = [⟨"u9", "New", 0, false⟩] :=
  ⟨rfl,
    (createDirectory_unique_name [⟨"u1", "new", 1, false⟩, ⟨"u2", "Other", 2, false⟩]
      "p" "New" ⟨"u9", "New", 0, false⟩ (fun n _ => Except.ok ⟨"u9", n, 0, false⟩)
      rfl).2.1⟩

/-! ## C8 and C10 -/

def sampleStatus : DirLinkStatus :=
  ⟨true, "link1", "key", 1, "never", none⟩

def sampleItemA : DriveItem :=
  ⟨"u1", "Alpha", 1, false⟩

def sampleItemB : DriveItem :=
  ⟨"u2", "Beta", 2, false⟩

/-- C8: successfully disabling an existing public link while the current
location is a links listing removes exactly the item with the matching uuid
from the local collection (others keep their relative order) and closes the
detail panel; the disable call carries the link's uuid. -/
theorem toggleStatus_disable_removes_from_links (stt : DirLinkStatus)
    (itemUUID location : String) (items : List DriveItem) (openPanel : Bool)
    (hex : stt.linkExists = true) (hloc : jsIncludes location "links" = true) :
    (toggleStatus (fun _ => Except.ok ()) itemUUID (some stt) false location items
        openPanel false).items =
      items.filter (fun prevItem => prevItem.uuid != itemUUID) ∧
    (∀ it ∈ (toggleStatus (fun _ => Except.ok ()) itemUUID (some stt) false location
        items openPanel false).items, it ∈ items ∧ it.uuid ≠ itemUUID) ∧
    (∀ it ∈ items, it.uuid ≠ itemUUID →
      it ∈ (toggleStatus (fun _ => Except.ok ()) itemUUID (some stt) false location
        items openPanel false).items) ∧
    (toggleStatus (fun _ => Except.ok ()) itemUUID (some stt) false location items
        openPanel false).items.Sublist items ∧
    (toggleStatus (fun _ => Except.ok ()) itemUUID (some stt) false location items
        openPanel false).openPanel = false ∧
    (toggleStatus (fun _ => Except.ok ()) itemUUID (some stt) false location items
        openPanel false).calls =
      [WorkerCall.disablePublicLink "directory" itemUUID stt.uuid,
        WorkerCall.refetchStatus itemUUID] := by
  have ht : toggleStatus (fun _ => Except.ok ()) itemUUID (some stt) false location
      items openPanel false =
      ⟨items.filter (fun prevItem => prevItem.uuid != itemUUID), false,
        [WorkerCall.disablePublicLink "directory" itemUUID stt.uuid,
          WorkerCall.refetchStatus itemUUID], []⟩ := by
    simp [toggleStatus, linkListingUpdate, hex, hloc]
  rw [ht]
  refine ⟨rfl, ?_, ?_, List.filter_sublist _, rfl, rfl⟩
  · intro it hit
    simp only [List.mem_filter, bne_iff_ne, ne_eq] at hit
    exact ⟨hit.1, hit.2⟩
  · intro it hit hne
    simp only [List.mem_filter, bne_iff_ne, ne_eq]
    exact ⟨hit, hne⟩

/-- Witness for C8 at a concrete two-item listing. -/
theorem toggleStatus_disable_removes_from_links_witness :
    sampleStatus.linkExists = true ∧
    jsIncludes "/drive/links" "links" = true ∧
    (toggleStatus (fun _ => Except.ok ()) "u1" (some sampleStatus) false "/drive/links"
        [sampleItemA, sampleItemB] true false).items =
      [sampleItemA, sampleItemB].filter (fun prevItem => prevItem.uuid != "u1") ∧
    (toggleStatus (fun _ => Except.ok ()) "u1" (some sampleStatus) false "/drive/links"
        [sampleItemA, sampleItemB] true false).openPanel = false :=
  ⟨rfl, by decide,
    (toggleStatus_disable_removes_from_links sampleStatus "u1" "/drive/links"
      [sampleItemA, sampleItemB] true rfl (by decide)).1,
    (toggleStatus_disable_removes_from_links sampleStatus "u1" "/drive/links"
      [sampleItemA, sampleItemB] true rfl (by decide)).2.2.2.2.1⟩

/-- C10: the removal-from-listing behaviour is independent of the toggle
direction: after a successful link-status toggle with either `checked`
value (the link existing, so that disabling is not the silent early-return),
while the location includes `"links"`, the item is removed from the local
listing and the detail panel is closed. -/
theorem toggleStatus_either_direction_removes (stt : DirLinkStatus)
    (itemUUID location : String) (items : List DriveItem) (openPanel : Bool)
    (checked : Bool) (hex : stt.linkExists = true)
    (hloc : jsIncludes location "links" = true) :
    (toggleStatus (fun _ => Except.ok ()) itemUUID (some stt) false location items
        openPanel checked).items =
      items.filter (fun prevItem => prevItem.uuid != itemUUID) ∧
    (toggleStatus (fun _ => Except.ok ()) itemUUID (some stt) false location items
        openPanel checked).openPanel = false := by
  cases checked with
  | false =>
    constructor
    · simp [toggleStatus, linkListingUpdate, hex, hloc]
    · simp [toggleStatus, linkListingUpdate, hex, hloc]
  | true =>
    constructor
    · simp [toggleStatus, linkListingUpdate, hloc]
    · simp [toggleStatus, linkListingUpdate, hloc]

/-- Witness for C10, exercising the enabling direction. -/
theorem toggleStatus_either_direction_removes_witness :
    sampleStatus.linkExists = true ∧
    jsIncludes "/drive/links" "links" = true ∧
    (toggleStatus (fun _ => Except.ok ()) "u1" (some sampleStatus) false "/drive/links"
        [sampleItemA, sampleItemB] true true).items =
      [sampleItemA, sampleItemB].filter (fun prevItem => prevItem.uuid != "u1") ∧
    (toggleStatus (fun _ => Except.ok ()) "u1" (some sampleStatus) false "/drive/links"
        [sampleItemA, sampleItemB] true true).openPanel = false :=
  ⟨rfl, by decide,
    (toggleStatus_either_direction_removes sampleStatus "u1" "/drive/links"
      [sampleItemA, sampleItemB] true true rfl (by decide)).1,
    (toggleStatus_either_direction_removes sampleStatus "u1" "/drive/links"
      [sampleItemA, sampleItemB] true true rfl (by decide)).2⟩

/-! ## C3 -/

/-- C3 fails on the code: a confirmed `deleteSync` whose sync has no record
in the local mirror still issues the remote `syncUpdateRemoved` call (the
handler never consults the mirror), and a `togglePause` invoked while the
`changing` flag is already set — i.e. while another invocation is in
flight — is not ignored: it issues remote calls and mutates the mirror,
because no handler of `src/unnamed/part_000` ever reads the flag. -/
theorem mutating_action_guards_counterexample :
    (findSyncConfig ([] : List SyncPair) "a" = none ∧
      (deleteSync (fun _ => Except.ok ()) ⟨[], none, false⟩ "a" true).calls =
        [RemoteCall.syncUpdateRemoved "a" true]) ∧
    ((togglePause (fun _ => Except.ok ()) ⟨[sampleSync], none, true⟩ "a").calls ≠ [] ∧
      (togglePause (fun _ => Except.ok ()) ⟨[sampleSync], none, true⟩ "a").state.syncPairs ≠
        [sampleSync]) :=
  ⟨⟨rfl, rfl⟩, by decide, by decide⟩

/-- C3 (amended): only the guards actually present in the code: `togglePause`
is a silent no-op (no state change, no remote call, no feedback) when the
sync's record is not in the local mirror; `toggleStatus` is a silent no-op
when its status record is not loaded or when an invocation is already in
flight (the `saving` flag); a cancelled `deleteSync` confirmation is a
silent no-op.  `deleteSync` has no loaded-record guard, and neither sync
handler checks an in-flight flag. -/
theorem mutating_action_guards (remote : RemoteCall → Except JsError Unit)
    (remoteW : WorkerCall → Except JsError Unit) (st : SyncsState)
    (uuid itemUUID location : String) (status : Option DirLinkStatus)
    (saving : Bool) (items : List DriveItem) (openPanel checked : Bool) :
    (findSyncConfig st.syncPairs uuid = none →
      togglePause remote st uuid = ⟨st, [], [], none⟩) ∧
    (toggleStatus remoteW itemUUID none saving location items openPanel checked =
      ⟨items, openPanel, [], []⟩) ∧
    (saving = true →
      toggleStatus remoteW itemUUID status saving location items openPanel checked =
        ⟨items, openPanel, [], []⟩) ∧
    (deleteSync remote st uuid false = ⟨st, [], [], none⟩) := by
  refine ⟨?_, rfl, ?_, rfl⟩
  · intro h
    simp [togglePause, h]
  · intro h
    subst h
    cases status with
    | none => rfl
    | some stt => rfl

/-- Witness for the amended C3 at concrete inputs. -/
theorem mutating_action_guards_witness :
    findSyncConfig ([] : List SyncPair) "a" = none ∧
    togglePause (fun _ => Except.ok ()) ⟨[], none, false⟩ "a" =
      ⟨⟨[], none, false⟩, [], [], none⟩ ∧
    toggleStatus (fun _ => Except.ok ()) "u1" none false "/drive"
      [sampleItemA] true true = ⟨[sampleItemA], true, [], []⟩ ∧
    toggleStatus (fun _ => Except.ok ()) "u1" (some sampleStatus) true "/drive"
      [sampleItemA] true true = ⟨[sampleItemA], true, [], []⟩ ∧
    deleteSync (fun _ => Except.ok ()) ⟨[], none, false⟩ "a" false =
      ⟨⟨[], none, false⟩, [], [], none⟩ :=
  ⟨rfl,
    (mutating_action_guards (fun _ => Except.ok ()) (fun _ => Except.ok ())
      ⟨[], none, false⟩ "a" "u1" "/drive" (some sampleStatus) false
      [sampleItemA] true true).1 rfl,
    (mutating_action_guards (fun _ => Except.ok ()) (fun _ => Except.ok ())
      ⟨[], none, false⟩ "a" "u1" "/drive" (some sampleStatus) false
      [sampleItemA] true true).2.1,
    (mutating_action_guards (fun _ => Except.ok ()) (fun _ => Except.ok ())
      ⟨[], none, false⟩ "a" "u1" "/drive" (some sampleStatus) true
      [sampleItemA] true true).2.2.1 rfl,
    (mutating_action_guards (fun _ => Except.ok ()) (fun _ => Except.ok ())
      ⟨[], none, false⟩ "a" "u1" "/drive" (some sampleStatus) false
      [sampleItemA] true true).2.2.2⟩

/-! ## C2 -/

/-- C2: for every action, when the remote call rejects with `e`, the
mirrored local state (sync pairs, selected sync, drive items, panel state)
is exactly what it was before the action, the handler navigates nowhere,
and exactly one error toast is shown, whose message is the error's
`message` field, falling back to its string form when the field is
absent. -/
theorem remote_error_leaves_state_unchanged (e : JsError) :
    (∀ (st : SyncsState) (uuid : String) (p : SyncPair),
      findSyncConfig st.syncPairs uuid = some p →
      (togglePause (fun _ => Except.error e) st uuid).state.syncPairs = st.syncPairs ∧
      (togglePause (fun _ => Except.error e) st uuid).state.selectedSync =
        st.selectedSync ∧
      (togglePause (fun _ => Except.error e) st uuid).errorToasts =
        [e.message.getD e.toStr]) ∧
    (∀ (st : SyncsState) (uuid : String),
      (deleteSync (fun _ => Except.error e) st uuid true).state.syncPairs =
        st.syncPairs ∧
      (deleteSync (fun _ => Except.error e) st uuid true).state.selectedSync =
        st.selectedSync ∧
      (deleteSync (fun _ => Except.error e) st uuid true).navigatedTo = none ∧
      (deleteSync (fun _ => Except.error e) st uuid true).errorToasts =
        [e.message.getD e.toStr]) ∧
    (∀ (name parent : String) (items : List DriveItem),
      (createDirectory (fun _ _ => Except.error e) (some name) parent items).1 =
        items ∧
      (createDirectory (fun _ _ => Except.error e) (some name) parent items).2 =
        [e.message.getD e.toStr]) ∧
    (∀ (itemUUID location : String) (stt : DirLinkStatus) (items : List DriveItem)
      (openPanel checked : Bool),
      checked = true ∨ stt.linkExists = true →
      (toggleStatus (fun _ => Except.error e) itemUUID (some stt) false location items
          openPanel checked).items = items ∧
      (toggleStatus (fun _ => Except.error e) itemUUID (some stt) false location items
          openPanel checked).openPanel = openPanel ∧
      (toggleStatus (fun _ => Except.error e) itemUUID (some stt) false location items
          openPanel checked).errorToasts = [e.message.getD e.toStr]) ∧
    (∀ (itemUUID expiration password : String) (stt : DirLinkStatus)
      (downloadBtn : Bool),
      stt.linkExists = true →
      (save (fun _ => Except.error e) itemUUID (some stt) false downloadBtn expiration
          password).2 = [e.message.getD e.toStr]) := by
  refine ⟨?_, ?_, ?_, ?_, ?_⟩
  · intro st uuid p h
    refine ⟨?_, ?_, ?_⟩ <;> simp [togglePause, h, errMessage]
  · intro st uuid
    exact ⟨rfl, rfl, rfl, rfl⟩
  · intro name parent items
    exact ⟨rfl, rfl⟩
  · intro itemUUID location stt items openPanel checked h
    cases checked with
    | true => exact ⟨rfl, rfl, rfl⟩
    | false =>
      have hex : stt.linkExists = true := h.resolve_left (by simp)
      refine ⟨?_, ?_, ?_⟩ <;> simp [toggleStatus, hex, errMessage]
  · intro itemUUID expiration password stt downloadBtn hex
    simp [save, hex, errMessage]

/-- Witness for C2: a failing oracle at concrete states for all five
actions. -/
theorem remote_error_leaves_state_unchanged_witness :
    findSyncConfig [sampleSync] "a" = some sampleSync ∧
    (togglePause (fun _ => Except.error sampleErr)
        ⟨[sampleSync], some "x", false⟩ "a").state.syncPairs = [sampleSync] ∧
    (togglePause (fun _ => Except.error sampleErr)
        ⟨[sampleSync], some "x", false⟩ "a").errorToasts = ["request failed"] ∧
    (deleteSync (fun _ => Except.error sampleErr)
        ⟨[sampleSync], some "x", false⟩ "a" true).state.syncPairs = [sampleSync] ∧
    (createDirectory (fun _ _ => Except.error sampleErr) (some "New") "p"
        [sampleItemA]).1 = [sampleItemA] ∧
    (toggleStatus (fun _ => Except.error sampleErr) "u1" (some sampleStatus) false
        "/drive/links" [sampleItemA] true false).items = [sampleItemA] ∧
    (save (fun _ => Except.error sampleErr) "u1" (some sampleStatus) false true
        "never" "").2 = ["request failed"] :=
  ⟨by decide,
    ((remote_error_leaves_state_unchanged sampleErr).1
      ⟨[sampleSync], some "x", false⟩ "a" sampleSync (by decide)).1,
    ((remote_error_leaves_state_unchanged sampleErr).1
      ⟨[sampleSync], some "x", false⟩ "a" sampleSync (by decide)).2.2,
    ((remote_error_leaves_state_unchanged sampleErr).2.1
      ⟨[sampleSync], some "x", false⟩ "a").1,
    ((remote_error_leaves_state_unchanged sampleErr).2.2.1 "New" "p" [sampleItemA]).1,
    ((remote_error_leaves_state_unchanged sampleErr).2.2.2.1 "u1" "/drive/links"
      sampleStatus [sampleItemA] true false (Or.inr rfl)).1,
    (remote_error_leaves_state_unchanged sampleErr).2.2.2.2 "u1" "never" ""
      sampleStatus true rfl⟩

/-! ## C7 -/

/-- C7: for a positive integer millisecond-precision timestamp `t` close to
`now` (precisely: `2·now < 1001·t` and `1001·t ≤ 2000·now`, which any
timestamp within a factor of two of a positive `now` satisfies),
`convertTimestampToMs` returns `t` unchanged — the as-is interpretation is
strictly closer to `now` — while on the equivalent seconds-precision
timestamp `t / 1000` it returns the millisecond-scaled value `t`; the two
results are equal. -/
theorem convertTimestampToMs_close_to_now (now : ℚ) (t : ℤ)
    (hnow : 0 < now) (ht : 0 < t) (hlow : 2 * now < 1001 * (t : ℚ))
    (hhigh : 1001 * (t : ℚ) ≤ 2000 * now) :
    convertTimestampToMs now (t : ℚ) = (t : ℚ) ∧
    convertTimestampToMs now ((t : ℚ) / 1000) = (t : ℚ) := by
  have htQ : (0 : ℚ) < (t : ℚ) := by exact_mod_cast ht
  constructor
  · have hcond : |now - (t : ℚ)| < |now - (t : ℚ) * 1000| := by
      have hlt : now < (t : ℚ) * 1000 := by linarith
      rw [abs_of_nonpos (by linarith : now - (t : ℚ) * 1000 ≤ 0)]
      rcases le_or_lt (t : ℚ) now with hc | hc
      · rw [abs_of_nonneg (by linarith : (0 : ℚ) ≤ now - (t : ℚ))]
        linarith
      · rw [abs_of_nonpos (by linarith : now - (t : ℚ) ≤ 0)]
        linarith
    unfold convertTimestampToMs
    rw [if_pos hcond]
  · have hu : ((t : ℚ) / 1000) * 1000 = (t : ℚ) := by ring
    have hcond : ¬ |now - (t : ℚ) / 1000| < |now - ((t : ℚ) / 1000) * 1000| := by
      rw [hu, not_lt]
      rcases le_or_lt (t : ℚ) now with hc | hc
      · rw [abs_of_nonneg (by linarith : (0 : ℚ) ≤ now - (t : ℚ)),
          abs_of_nonneg (by linarith : (0 : ℚ) ≤ now - (t : ℚ) / 1000)]
        linarith
      · rw [abs_of_nonpos (by linarith : now - (t : ℚ) ≤ 0)]
        calc -(now - (t : ℚ)) ≤ now - (t : ℚ) / 1000 := by linarith
          _ ≤ |now - (t : ℚ) / 1000| := le_abs_self _
    unfold convertTimestampToMs
    rw [if_neg hcond, hu, Int.floor_intCast]

/-- Witness for C7 at `now = 1000`, `t = 1500`. -/
theorem convertTimestampToMs_close_to_now_witness :
    (0 : ℚ) < 1000 ∧ (0 : ℤ) < 1500 ∧
    convertTimestampToMs 1000 ((1500 : ℤ) : ℚ) = ((1500 : ℤ) : ℚ) ∧
    convertTimestampToMs 1000 (((1500 : ℤ) : ℚ) / 1000) = ((1500 : ℤ) : ℚ) :=
  ⟨by norm_num, by norm_num,
    (convertTimestampToMs_close_to_now 1000 1500 (by norm_num) (by norm_num)
      (by norm_num) (by norm_num)).1,
    (convertTimestampToMs_close_to_now 1000 1500 (by norm_num) (by norm_num)
      (by norm_num) (by norm_num)).2⟩

/-! ## Helper lemmas for formatBytes -/

theorem intLog1024_eq {q : ℚ} {n : ℤ} (h1 : ((1024 : ℕ) : ℚ) ^ n ≤ q)
    (h2 : q < ((1024 : ℕ) : ℚ) ^ (n + 1)) : Int.log 1024 q = n := by
  have hb : 1 < (1024 : ℕ) := by norm_num
  have h0 : (0 : ℚ) < q := lt_of_lt_of_le (by positivity) h1
  have ha := (Int.zpow_le_iff_le_log hb h0).mp h1
  have hc := (Int.lt_zpow_iff_log_lt hb h0).mp h2
  omega

theorem intLog1024_eq_ofNat (n : ℕ) {q : ℚ} (h1 : (1024 : ℚ) ^ n ≤ q)
    (h2 : q < (1024 : ℚ) ^ (n + 1)) : Int.log 1024 q = n := by
  have e1 : ((1024 : ℕ) : ℚ) ^ ((n : ℤ)) = (1024 : ℚ) ^ n := by
    rw [zpow_natCast]
    norm_num
  have e2 : ((1024 : ℕ) : ℚ) ^ ((n : ℤ) + 1) = (1024 : ℚ) ^ (n + 1) := by
    have hcast : ((n : ℤ) + 1) = ((n + 1 : ℕ) : ℤ) := by push_cast; ring
    rw [hcast, zpow_natCast]
    norm_num
  exact intLog1024_eq (by rw [e1]; exact h1) (by rw [e2]; exact h2)

theorem formatBytes_eval (bytes : ℚ) (hb : ¬bytes = 0) (d : ℤ) :
    formatBytes bytes d =
      jsToFixedParseFloatString (bytes / (1024 : ℚ) ^ Int.log 1024 bytes)
        (if d < 0 then 0 else d.toNat) ++ " " ++
      jsArrayGet sizes (Int.log 1024 bytes) := by
  rw [formatBytes, if_neg hb]

/-! ## C9 -/

/-- C9: for every byte count strictly between 0 and 1 the computed unit
index `Int.log 1024 bytes` is negative, so the unit-table lookup falls out
of bounds and renders `undefined`, which is not one of the units
Bytes…YB. -/
theorem formatBytes_subunit (q : ℚ) (d : ℤ) (h0 : 0 < q) (h1 : q < 1) :
    Int.log 1024 q < 0 ∧
    jsArrayGet sizes (Int.log 1024 q) = "undefined" ∧
    formatBytes q d =
      jsToFixedParseFloatString (q / (1024 : ℚ) ^ Int.log 1024 q)
        (if d < 0 then 0 else d.toNat) ++ " " ++ "undefined" ∧
    "undefined" ∉ sizes := by
  have hb : 1 < (1024 : ℕ) := by norm_num
  have hneg : Int.log 1024 q < 0 := by
    have h2 : q < ((1024 : ℕ) : ℚ) ^ (0 : ℤ) := by simpa using h1
    exact (Int.lt_zpow_iff_log_lt hb h0).mp h2
  have hj : jsArrayGet sizes (Int.log 1024 q) = "undefined" := by
    rw [jsArrayGet]
    exact dif_neg (fun hcon => absurd hcon.1 (not_le.mpr hneg))
  refine ⟨hneg, hj, ?_, by decide⟩
  rw [formatBytes_eval q (by linarith) d, hj]

/-- Witness for C9 at one half of a byte. -/
theorem formatBytes_subunit_witness :
    (0 : ℚ) < 1 / 2 ∧ (1 / 2 : ℚ) < 1 ∧
    Int.log 1024 (1 / 2 : ℚ) < 0 ∧
    jsArrayGet sizes (Int.log 1024 (1 / 2 : ℚ)) = "undefined" :=
  ⟨by norm_num, by norm_num,
    (formatBytes_subunit (1 / 2) 2 (by norm_num) (by norm_num)).1,
    (formatBytes_subunit (1 / 2) 2 (by norm_num) (by norm_num)).2.1⟩

theorem jsToFixed_one_two : jsToFixedParseFloatString 1 2 = "1" := by
  have h : ((1 : ℚ) * 10 ^ 2) = ((100 : ℤ) : ℚ) := by norm_num
  rw [jsToFixedParseFloatString, h, round_intCast]
  decide

theorem jsToFixed_threehalves_one : jsToFixedParseFloatString (3 / 2) 1 = "1.5" := by
  have h : ((3 / 2 : ℚ) * 10 ^ 1) = ((15 : ℤ) : ℚ) := by norm_num
  rw [jsToFixedParseFloatString, h, round_intCast]
  decide

theorem formatBytes_at_1024 : formatBytes 1024 2 = "1 KB" := by
  have hlog : Int.log 1024 (1024 : ℚ) = 1 :=
    intLog1024_eq_ofNat 1 (by norm_num) (by norm_num)
  rw [formatBytes_eval 1024 (by norm_num) 2, hlog]
  have hq : (1024 : ℚ) / (1024 : ℚ) ^ (1 : ℤ) = 1 := by
    norm_num [zpow_one]
  rw [hq]
  show jsToFixedParseFloatString 1 2 ++ " " ++ jsArrayGet sizes 1 = "1 KB"
  rw [jsToFixed_one_two]
  decide

theorem formatBytes_at_1536 : formatBytes 1536 1 = "1.5 KB" := by
  have hlog : Int.log 1024 (1536 : ℚ) = 1 :=
    intLog1024_eq_ofNat 1 (by norm_num) (by norm_num)
  rw [formatBytes_eval 1536 (by norm_num) 1, hlog]
  have hq : (1536 : ℚ) / (1024 : ℚ) ^ (1 : ℤ) = 3 / 2 := by
    norm_num [zpow_one]
  rw [hq]
  show jsToFixedParseFloatString (3 / 2) 1 ++ " " ++ jsArrayGet sizes 1 = "1.5 KB"
  rw [jsToFixed_threehalves_one]
  decide

theorem jsArrayGet_mem_of_bounds (l : List String) (i : ℤ) (h0 : 0 ≤ i)
    (hl : i.toNat < l.length) : jsArrayGet l i ∈ l := by
  rw [jsArrayGet, dif_pos ⟨h0, hl⟩]
  exact List.get_mem l i.toNat hl

/-! ## C6 -/

/-- C6 fails as stated for byte counts at and beyond `1024 ^ 9`: at
`1024 ^ 10` bytes the computed index is 10, outside the nine-entry unit
table, so the rendered unit is `undefined` rather than the largest unit
(YB) whose divisor keeps the mantissa at least 1. -/
theorem formatBytes_unit_overflow_counterexample :
    formatBytes ((1024 : ℚ) ^ (10 : ℕ)) 2 = "1 undefined" ∧
    "undefined" ∉ sizes := by
  refine ⟨?_, by decide⟩
  have hlog : Int.log 1024 ((1024 : ℚ) ^ (10 : ℕ)) = 10 :=
    intLog1024_eq_ofNat 10 le_rfl (by norm_num)
  rw [formatBytes_eval _ (ne_of_gt (by positivity)) 2, hlog]
  have hq : (1024 : ℚ) ^ (10 : ℕ) / (1024 : ℚ) ^ (10 : ℤ) = 1 := by
    rw [show ((10 : ℤ)) = ((10 : ℕ) : ℤ) from rfl, zpow_natCast]
    exact div_self (by positivity)
  rw [hq]
  show jsToFixedParseFloatString 1 2 ++ " " ++ jsArrayGet sizes 10 = "1 undefined"
  rw [jsToFixed_one_two]
  decide

/-- C6 (amended): `formatBytes 0` is the fixed literal `"0 Bytes"`; for
every byte count `q` with `1 ≤ q < 1024 ^ 9` the computed index
`Int.log 1024 q` lies inside the unit table and is exactly the largest unit
whose power-of-1024 divisor keeps the mantissa at least 1
(`1024 ^ i ≤ q < 1024 ^ (i + 1)`), the rendered unit is one of Bytes…YB,
and the output is the mantissa rounded to the requested precision followed
by that unit; `formatBytes 1024 2 = "1 KB"` and
`formatBytes 1536 1 = "1.5 KB"`.  (For `q ≥ 1024 ^ 9` the index leaves the
table — see the counterexample.) -/
theorem formatBytes_spec :
    (∀ d : ℤ, formatBytes 0 d = "0 Bytes") ∧
    (∀ (q : ℚ) (d : ℤ), 1 ≤ q → q < (1024 : ℚ) ^ (9 : ℕ) →
      0 ≤ Int.log 1024 q ∧ Int.log 1024 q < 9 ∧
      ((1024 : ℕ) : ℚ) ^ Int.log 1024 q ≤ q ∧
      q < ((1024 : ℕ) : ℚ) ^ (Int.log 1024 q + 1) ∧
      jsArrayGet sizes (Int.log 1024 q) ∈ sizes ∧
      formatBytes q d =
        jsToFixedParseFloatString (q / (1024 : ℚ) ^ Int.log 1024 q)
          (if d < 0 then 0 else d.toNat) ++ " " ++
        jsArrayGet sizes (Int.log 1024 q)) ∧
    formatBytes 1024 2 = "1 KB" ∧
    formatBytes 1536 1 = "1.5 KB" := by
  refine ⟨?_, ?_, formatBytes_at_1024, formatBytes_at_1536⟩
  · intro d
    rw [formatBytes, if_pos rfl]
  · intro q d h1 h9
    have hb : 1 < (1024 : ℕ) := by norm_num
    have h0 : (0 : ℚ) < q := by linarith
    have hL0 : 0 ≤ Int.log 1024 q := by
      have hone : ((1024 : ℕ) : ℚ) ^ (0 : ℤ) ≤ q := by simpa using h1
      exact (Int.zpow_le_iff_le_log hb h0).mp hone
    have hL9 : Int.log 1024 q < 9 := by
      have h9Q : q < ((1024 : ℕ) : ℚ) ^ (9 : ℤ) := by
        rw [show ((9 : ℤ)) = ((9 : ℕ) : ℤ) from rfl, zpow_natCast]
        norm_num
        exact h9
      exact (Int.lt_zpow_iff_log_lt hb h0).mp h9Q
    refine ⟨hL0, hL9, Int.zpow_log_le_self hb h0, Int.lt_zpow_succ_log_self hb q,
      jsArrayGet_mem_of_bounds sizes _ hL0 (by
        have hlen : sizes.length = 9 := rfl
        omega), ?_⟩
    exact formatBytes_eval q (ne_of_gt h0) d

/-- Witness for the amended C6 at 2048 bytes. -/
theorem formatBytes_spec_witness :
    (1 : ℚ) ≤ 2048 ∧ (2048 : ℚ) < (1024 : ℚ) ^ (9 : ℕ) ∧
    formatBytes 0 5 = "0 Bytes" ∧
    jsArrayGet sizes (Int.log 1024 (2048 : ℚ)) ∈ sizes ∧
    formatBytes 2048 2 =
      jsToFixedParseFloatString ((2048 : ℚ) / (1024 : ℚ) ^ Int.log 1024 (2048 : ℚ))
        (if (2 : ℤ) < 0 then 0 else (2 : ℤ).toNat) ++ " " ++
      jsArrayGet sizes (Int.log 1024 (2048 : ℚ)) :=
  ⟨by norm_num, by norm_num,
    formatBytes_spec.1 5,
    (formatBytes_spec.2.1 2048 2 (by norm_num) (by norm_num)).2.2.2.2.1,
    (formatBytes_spec.2.1 2048 2 (by norm_num) (by norm_num)).2.2.2.2.2⟩
